import Mathlib

/-!
A verification development for the Bybit Volume Radar volume-anomaly engine.

The definitions below are shallow embeddings of the engine's core functions:
* the event store (`src/unnamed/part_005`, `StoreService`),
* the live scanner (`src/unnamed/part_006`, `ScannerEngine`),
* the historical reporter (`src/unnamed/part_004`, `HistoricalReporter`),
* the earlier scanner revision (`src/src/services/scanner.ts`, `ScannerEngine.analyze`).

Numbers are modelled as real numbers (`ℝ`), `Math.sqrt` as `Real.sqrt`, timestamps
as integers, and fallible or skipping control flow as `Option`.  Asynchronous fetches
are modelled by passing each task's fetch outcome as an explicit `Option` input.
-/

namespace VolumeRadar

/-- One OHLCV candle (`src/src/types.ts`).  The source field `open` is renamed `opn`
because `open` is a Lean keyword. -/
structure OHLCV where
  time : Int
  opn : ℝ
  high : ℝ
  low : ℝ
  close : ℝ
  volume : ℝ
deriving Inhabited

/-- Timeframes are string tags (`'5m' | '30m' | '240'`). -/
abbrev Timeframe := String

/-- Direction classification of the current event model (`src/src/types.ts`,
first revision in the file): `'bullish' | 'bearish'`. -/
inductive EvType where
  | bullish
  | bearish
deriving DecidableEq, Inhabited

/-- Severity tiers of the current event model: `'medium' | 'high'`. -/
inductive Severity where
  | medium
  | high
deriving DecidableEq, Inhabited

/-- `VolumeEvent` of the current revision (`src/src/types.ts`). -/
structure VolumeEvent where
  id : String
  symbol : String
  timeframe : Timeframe
  time : Int
  type : EvType
  severity : Severity
  zScore : ℝ
  openPrice : ℝ
  closePrice : ℝ
deriving Inhabited

/-- The event id `` `${symbol}-${timeframe}-${time}` ``. -/
def mkEventId (symbol : String) (timeframe : Timeframe) (time : Int) : String :=
  symbol ++ "-" ++ timeframe ++ "-" ++ toString time

/-- `parseFloat(z.toFixed(2))`: rounding to two decimal places. -/
noncomputable def round2 (x : ℝ) : ℝ := (round (x * 100) : ℤ) / 100

/-- `StoreService.addEvent` (src/unnamed/part_005 lines 66-75): `unshift` the event to
the front, then cap the list at 500 via `slice(0, 500)`.  There is no duplicate-id
check in this method. -/
def addEvent (events : List VolumeEvent) (event : VolumeEvent) : List VolumeEvent :=
  let grown := event :: events
  if grown.length > 500 then grown.take 500 else grown

/-- Baseline statistics record `{ ema, stdDev }`. -/
structure Stats where
  ema : ℝ
  stdDev : ℝ

/-- EMA helper of `HistoricalReporter.calculateStats` (src/unnamed/part_004 lines
94-101): `k = 2 / (values.length + 1)`, seeded with `values[0]`, iterated forward. -/
noncomputable def calculateEMA (values : List ℝ) : ℝ :=
  let k : ℝ := 2 / ((values.length : ℝ) + 1)
  (values.drop 1).foldl (fun ema v => v * k + ema * (1 - k)) values.headI

/-- StdDev helper of `HistoricalReporter.calculateStats` (part_004 lines 103-107):
population standard deviation of `values` around `mean`. -/
noncomputable def calculateStdDev (values : List ℝ) (mean : ℝ) : ℝ :=
  let squareDiffs := values.map (fun v => (v - mean) ^ 2)
  let avgSquareDiff := squareDiffs.sum / (values.length : ℝ)
  Real.sqrt avgSquareDiff

/-- `HistoricalReporter.calculateStats` (part_004 lines 89-113): EMA of the window's
volumes and the standard deviation of those volumes around that EMA; `null` when the
window is empty. -/
noncomputable def calculateStats (window : List OHLCV) : Option Stats :=
  let volumes := window.map (fun c => c.volume)
  if volumes.length = 0 then none
  else
    let ema := calculateEMA volumes
    some ⟨ema, calculateStdDev volumes ema⟩

/-- The baseline window `candles.slice(i - PERIOD, i)` of `scanHistory` (part_004
line 60, PERIOD = 21).  The enclosing loop only evaluates indices `21 ≤ i`. -/
def windowAt (candles : List OHLCV) (i : Nat) : List OHLCV :=
  (candles.drop (i - 21)).take 21

/-- Loop body of `HistoricalReporter.scanHistory` for index `i` (part_004 lines
56-83): the event pushed for bar `i`, if any.  Bars whose window statistics are
missing or have `stdDev = 0` are skipped; the threshold test is the inclusive
`zScore >= minZScore`. -/
noncomputable def scanBar (symbol : String) (timeframe : Timeframe) (candles : List OHLCV)
    (minZScore : ℝ) (i : Nat) : Option VolumeEvent :=
  let current := candles.getD i default
  match calculateStats (windowAt candles i) with
  | none => none
  | some stats =>
    if stats.stdDev = 0 then none
    else
      let zScore := (current.volume - stats.ema) / stats.stdDev
      if zScore ≥ minZScore then
        some
          { id := mkEventId symbol timeframe current.time
            symbol := symbol
            timeframe := timeframe
            time := current.time
            type := if current.close ≥ current.opn then EvType.bullish else EvType.bearish
            severity := if zScore > 3 then Severity.high else Severity.medium
            zScore := round2 zScore
            openPrice := current.opn
            closePrice := current.close }
      else none

/-- `HistoricalReporter.scanHistory` (part_004 lines 47-87): returns `[]` when fewer
than `PERIOD + 10 = 31` candles are available, otherwise runs the loop body over
`i = 21 .. candles.length - 1`. -/
noncomputable def scanHistory (symbol : String) (timeframe : Timeframe)
    (candles : List OHLCV) (minZScore : ℝ) : List VolumeEvent :=
  if candles.length < 21 + 10 then []
  else (List.range' 21 (candles.length - 21)).filterMap (scanBar symbol timeframe candles minZScore)

/-- `ReportConfig` as consumed by `HistoricalReporter.generateReport`
(part_004 lines 12-17 build the cross product over `config.timeframes`). -/
structure ReportConfig where
  symbols : List String
  timeframes : List Timeframe
  lookback : Nat
  minZScore : ℝ

/-- The flattened task list of `generateReport` (part_004 lines 12-17): one task per
`(symbol, timeframe)` pair, symbols outermost. -/
def reportTasks (config : ReportConfig) : List (String × Timeframe) :=
  config.symbols.flatMap (fun s => config.timeframes.map (fun tf => (s, tf)))

/-- The events gathered by `generateReport` before the final sort (part_004 lines
23-41).  Each task's fetch outcome is an explicit input; a failed fetch (`none`) is
caught and contributes no events (lines 34-36).  Batching and the progress callback
affect only timing and notifications, not which events are gathered. -/
noncomputable def reportResults (config : ReportConfig)
    (fetch : String → Timeframe → Option (List OHLCV)) : List VolumeEvent :=
  (reportTasks config).flatMap (fun t =>
    match fetch t.1 t.2 with
    | some candles => scanHistory t.1 t.2 candles config.minZScore
    | none => [])

/-- `results.sort((a, b) => b.time - a.time)` (part_004 line 44): stable sort,
newest (largest `time`) first. -/
noncomputable def sortByTimeDesc (results : List VolumeEvent) : List VolumeEvent :=
  List.insertionSort (fun a b => b.time ≤ a.time) results

/-- `HistoricalReporter.generateReport` (part_004 lines 7-45): gather the surviving
tasks' events and sort them by time descending. -/
noncomputable def generateReport (config : ReportConfig)
    (fetch : String → Timeframe → Option (List OHLCV)) : List VolumeEvent :=
  sortByTimeDesc (reportResults config fetch)

/-- `ScannerEngine.getStatsForWindow` (src/unnamed/part_006 lines 104-130): EMA over
the whole history `candles.slice(0, endIndex)` with `k = 2 / (period + 1)`, and the
standard deviation of the last `period` of those volumes around that EMA. -/
noncomputable def getStatsForWindow (candles : List OHLCV) (endIndex : Nat)
    (period : Nat) : Option Stats :=
  if endIndex < period then none
  else
    let relevantHistory := candles.take endIndex
    let volumes := relevantHistory.map (fun c => c.volume)
    let k : ℝ := 2 / ((period : ℝ) + 1)
    let ema := (volumes.drop 1).foldl (fun ema v => v * k + ema * (1 - k)) volumes.headI
    let recent := volumes.drop (volumes.length - period)
    let squareDiffs := recent.map (fun v => (v - ema) ^ 2)
    let avgSquareDiff := squareDiffs.sum / (recent.length : ℝ)
    some ⟨ema, Real.sqrt avgSquareDiff⟩

/-- `ScannerEngine.createEvent` (part_006 lines 174-190). -/
noncomputable def createEvent (symbol : String) (timeframe : Timeframe) (candle : OHLCV)
    (zScore : ℝ) : VolumeEvent :=
  { id := mkEventId symbol timeframe candle.time
    symbol := symbol
    timeframe := timeframe
    time := candle.time
    type := if candle.close ≥ candle.opn then EvType.bullish else EvType.bearish
    severity := if zScore > 3 then Severity.high else Severity.medium
    zScore := round2 zScore
    openPrice := candle.opn
    closePrice := candle.close }

/-- Detection part of `ScannerEngine.analyzeLatest` (part_006 lines 150-158): the
event the newest bar yields, if any.  The threshold test is the hard-coded strict
`zScore > 2.0`; the configured settings are consulted only for the sound side
effect, which this embedding omits. -/
noncomputable def analyzeLatestEvent (symbol : String) (timeframe : Timeframe)
    (candles : List OHLCV) : Option VolumeEvent :=
  match getStatsForWindow candles (candles.length - 1) 21 with
  | none => none
  | some stats =>
    if stats.stdDev = 0 then none
    else
      let current := candles.getD (candles.length - 1) default
      let zScore := (current.volume - stats.ema) / stats.stdDev
      if zScore > 2 then some (createEvent symbol timeframe current zScore) else none

/-- Store update of `ScannerEngine.analyzeLatest` (part_006 lines 158-171): the
detected event is inserted through `Store.addEvent` only when no stored event has
the same id. -/
noncomputable def analyzeLatest (symbol : String) (timeframe : Timeframe)
    (candles : List OHLCV) (events : List VolumeEvent) : List VolumeEvent :=
  match analyzeLatestEvent symbol timeframe candles with
  | none => events
  | some event =>
    match events.find? (fun e => e.id == event.id) with
    | some _ => events
    | none => addEvent events event

/-- Modelled from the spec: `StoreService.setEvents` is missing from `src/` — the
store revision in part_005 predates it and only its caller `ScannerEngine.runLoop`
(part_006 line 63) is present.  Spec section 4.2: "`setEvents(list)`: atomic bulk
replace ... must still enforce the eviction cap on the incoming list (keep most
recent `CAP`, sorted newest-first)". -/
noncomputable def setEvents (_events : List VolumeEvent) (incoming : List VolumeEvent) :
    List VolumeEvent :=
  (sortByTimeDesc incoming).take 500

/-- Backfill completion in `ScannerEngine.runLoop` (part_006 lines 59-65): sort the
gathered events newest-first and commit them through one `setEvents` bulk replace. -/
noncomputable def backfillCommit (events : List VolumeEvent)
    (backfillEvents : List VolumeEvent) : List VolumeEvent :=
  setEvents events (sortByTimeDesc backfillEvents)

/-- Direction classification of the earlier event model (`src/src/types.ts`, second
revision in the file): `'impulse_up' | 'impulse_down' | 'rejection' | 'doji'`. -/
inductive EvTypeV1 where
  | impulse_up
  | impulse_down
  | rejection
  | doji
deriving DecidableEq, Inhabited

/-- Severity tiers of the earlier event model: `'mild' | 'strong' | 'climactic'`. -/
inductive SeverityV1 where
  | mild
  | strong
  | climactic
deriving DecidableEq, Inhabited

/-- `VolumeEvent` of the earlier revision (`src/src/types.ts`).  The source field
`volumeRatio` is modelled as `volumeMult`. -/
structure VolumeEventV1 where
  id : String
  symbol : String
  timeframe : Timeframe
  time : Int
  type : EvTypeV1
  severity : SeverityV1
  price : ℝ
  volumeMult : ℝ
  zScore : ℝ
deriving Inhabited

/-- `AppSettings` (`src/src/types.ts`).  The source field `minVolumeRatio` is
modelled as `minVolumeMult`. -/
structure AppSettings where
  apiEndpoint : String
  symbolCount : Nat
  sortCriteria : String
  minVolumeMult : ℝ
  minZScore : ℝ
  soundEnabled : Bool

/-- `DEFAULT_SETTINGS` (`src/src/types.ts` lines 44-51). -/
def DEFAULT_SETTINGS : AppSettings :=
  { apiEndpoint := "/bybit_api"
    symbolCount := 25
    sortCriteria := "volume"
    minVolumeMult := 2
    minZScore := 2
    soundEnabled := true }

/-- History slice of the earlier `ScannerEngine.analyze` (src/src/services/scanner.ts
line 97): the last 20 closed bars, excluding the developing candle. -/
def historyV1 (candles : List OHLCV) : List OHLCV :=
  let closed := candles.take (candles.length - 1)
  closed.drop (closed.length - 20)

/-- Baseline of the earlier `ScannerEngine.analyze` (scanner.ts lines 92-108):
arithmetic mean of the last 20 closed bars' volumes and population standard
deviation around that mean.  `none` models the early returns for fewer than 20
candles, empty history, or zero average volume. -/
noncomputable def analyzeBaselineV1 (candles : List OHLCV) : Option (ℝ × ℝ) :=
  if candles.length < 20 then none
  else
    let history := historyV1 candles
    if history.length = 0 then none
    else
      let avgVol := (history.map (fun c => c.volume)).sum / (history.length : ℝ)
      if avgVol = 0 then none
      else
        let variance := (history.map (fun c => (c.volume - avgVol) ^ 2)).sum / (history.length : ℝ)
        some (avgVol, Real.sqrt variance)

/-- Detection part of the earlier `ScannerEngine.analyze` (scanner.ts lines 91-169):
the event the developing candle yields, if any.  When `stdDev = 0` the z-score is
defined as `0` (line 109) rather than skipping the bar, and either the volume-ratio
test or the z-score test may fire (line 115). -/
noncomputable def analyze (symbol : String) (timeframe : Timeframe)
    (candles : List OHLCV) (settings : AppSettings) : Option VolumeEventV1 :=
  match analyzeBaselineV1 candles with
  | none => none
  | some (avgVol, stdDev) =>
    let current := candles.getD (candles.length - 1) default
    let volMult := current.volume / avgVol
    let zScore := if stdDev = 0 then 0 else (current.volume - avgVol) / stdDev
    let isVolSpike := volMult ≥ settings.minVolumeMult
    let isZScoreSpike := zScore ≥ settings.minZScore
    if isVolSpike ∨ isZScoreSpike then
      let bodySize := |current.close - current.opn|
      let candleRange := current.high - current.low
      let upperWick := current.high - max current.opn current.close
      let lowerWick := min current.opn current.close - current.low
      let type :=
        if bodySize < candleRange * (1 / 10) then EvTypeV1.doji
        else if current.close > current.opn then
          if upperWick > bodySize * 2 then EvTypeV1.rejection else EvTypeV1.impulse_up
        else if lowerWick > bodySize * 2 then EvTypeV1.rejection else EvTypeV1.impulse_down
      let severity :=
        if zScore > 4 ∨ volMult > 5 then SeverityV1.climactic
        else if zScore > 3 ∨ volMult > 3 then SeverityV1.strong
        else SeverityV1.mild
      some
        { id := mkEventId symbol timeframe current.time
          symbol := symbol
          timeframe := timeframe
          time := current.time
          type := type
          severity := severity
          price := current.close
          volumeMult := round2 volMult
          zScore := round2 zScore }
    else none

/-- Spec invariant (section 3): no two events in the store share an id. -/
def noDupIds (events : List VolumeEvent) : Prop :=
  events.Pairwise (fun a b => a.id ≠ b.id)

/-- Spec ordering (section 3): events are ordered newest-first by bar time. -/
def sortedNewestFirst (events : List VolumeEvent) : Prop :=
  events.Pairwise (fun a b => b.time ≤ a.time)

/-- Follows the spec's words (section 4.1): EMA with smoothing factor
`k = 2 / (period + 1)`, seeded with the first (oldest) sample, iterated forward. -/
noncomputable def emaSpec (values : List ℝ) (period : Nat) : ℝ :=
  let k : ℝ := 2 / ((period : ℝ) + 1)
  match values with
  | [] => 0
  | v :: vs => vs.foldl (fun ema x => x * k + ema * (1 - k)) v

/-- Follows the spec's words (section 4.1): population standard deviation of the
last `period` samples computed around the EMA value. -/
noncomputable def stdDevSpec (values : List ℝ) (period : Nat) (ema : ℝ) : ℝ :=
  let recent := values.drop (values.length - period)
  Real.sqrt ((recent.map (fun v => (v - ema) ^ 2)).sum / (recent.length : ℝ))

/-- A concrete candle with the given open time and volume; all prices zero. -/
def mkC (t : Int) (v : ℝ) : OHLCV :=
  { time := t, opn := 0, high := 0, low := 0, close := 0, volume := v }

/-- A concrete event used by the store examples. -/
def exEvent : VolumeEvent :=
  { id := "BTCUSDT-5m-0", symbol := "BTCUSDT", timeframe := "5m", time := 0
    type := EvType.bullish, severity := Severity.medium
    zScore := 0, openPrice := 0, closePrice := 0 }

/-- A 21-bar baseline window: twenty bars of volume 0 followed by one of volume 11.
Its EMA (with `k = 2/22 = 1/11`) is `1` and its variance around that EMA is
`(20 * 1 + 100) / 21 = 40/7`. -/
def base21 : List OHLCV :=
  [mkC 0 0, mkC 1 0, mkC 2 0, mkC 3 0, mkC 4 0, mkC 5 0, mkC 6 0,
   mkC 7 0, mkC 8 0, mkC 9 0, mkC 10 0, mkC 11 0, mkC 12 0, mkC 13 0,
   mkC 14 0, mkC 15 0, mkC 16 0, mkC 17 0, mkC 18 0, mkC 19 0, mkC 20 11]

/-- 22 candles whose newest bar has volume exactly at the baseline EMA, so its
z-score is `0`. -/
def exC6 : List OHLCV := base21 ++ [mkC 21 1]

/-- Settings whose configured threshold is `minZScore = 0`. -/
def settingsC6 : AppSettings := { DEFAULT_SETTINGS with minZScore := 0 }

/-- 22 candles whose newest bar has volume 100, far above the baseline EMA of 1. -/
def exC9 : List OHLCV := base21 ++ [mkC 21 100]

/-- 21 candles of constant volume 100 followed by a 1000-volume bar: history mean
100, standard deviation 0, volume ratio 10. -/
def exC4 : List OHLCV := List.replicate 20 (mkC 0 100) ++ [mkC 20 1000]

/-- 21 candles of constant volume 100: a degenerate, all-flat history. -/
def exFlat21 : List OHLCV := List.replicate 21 (mkC 0 100)

/-- 22 candles of constant volume 100. -/
def exFlat22 : List OHLCV := List.replicate 22 (mkC 0 100)

/-- 21 candles: nineteen zero-volume bars, one volume-11 bar, then the developing
candle.  The last 20 closed bars have mean `11/20`, while their spec EMA
(`k = 2/21`) is `22/21`. -/
def exC5 : List OHLCV :=
  [mkC 0 0, mkC 1 0, mkC 2 0, mkC 3 0, mkC 4 0, mkC 5 0, mkC 6 0,
   mkC 7 0, mkC 8 0, mkC 9 0, mkC 10 0, mkC 11 0, mkC 12 0, mkC 13 0,
   mkC 14 0, mkC 15 0, mkC 16 0, mkC 17 0, mkC 18 0, mkC 19 11, mkC 20 7]

/-- 31 trivial candles, the minimum length `scanHistory` accepts. -/
def ex31 : List OHLCV := List.replicate 31 (mkC 0 0)

/-- A concrete 2-symbol x 2-timeframe report configuration. -/
def configEx : ReportConfig :=
  { symbols := ["AAAUSDT", "BBBUSDT"], timeframes := ["30m", "240"], lookback := 100
    minZScore := 2 }

/-- A concrete fetch outcome in which exactly one of the four tasks fails. -/
def fetchEx (s : String) (tf : Timeframe) : Option (List OHLCV) :=
  if s = "AAAUSDT" ∧ tf = "30m" then none else some []

/-- `addEvent` always returns the first 500 elements of the grown list. -/
lemma addEvent_eq_take (events : List VolumeEvent) (event : VolumeEvent) :
    addEvent events event = (event :: events).take 500 := by
  by_cases h : (event :: events).length > 500
  · simp only [addEvent, if_pos h]
  · simp only [addEvent, if_neg h]
    exact (List.take_of_length_le (by omega)).symm

/-- Folding `addEvent` keeps the newest 500 events, newest first. -/
lemma foldl_addEvent (es : List VolumeEvent) :
    ∀ acc : List VolumeEvent, acc.length ≤ 500 →
      es.foldl addEvent acc = (es.reverse ++ acc).take 500 := by
  induction es with
  | nil =>
    intro acc h
    simpa using List.take_of_length_le h
  | cons e es ih =>
    intro acc h
    rw [List.foldl_cons, addEvent_eq_take,
      ih _ (le_trans (List.length_take_le _ _) (le_refl _)),
      List.reverse_cons, List.append_assoc, List.singleton_append,
      List.take_append_eq_append_take, List.take_append_eq_append_take, List.take_take,
      Nat.min_eq_left (Nat.sub_le _ _)]

/-- C1 (counterexample): `StoreService.addEvent` performs no duplicate check, so
inserting the same event twice leaves the store holding two events with equal id,
and the second `addEvent` call is not a no-op. -/
theorem c1_counterexample :
    addEvent (addEvent [] exEvent) exEvent = [exEvent, exEvent] ∧
    ¬ noDupIds (addEvent (addEvent [] exEvent) exEvent) := by
  have h2 : addEvent (addEvent [] exEvent) exEvent = [exEvent, exEvent] := rfl
  refine ⟨h2, ?_⟩
  rw [h2]
  intro h
  have := (List.pairwise_cons.mp h).1 exEvent (by simp)
  exact this rfl

/-- C1 (amended): `addEvent` itself does not deduplicate; the duplicate check lives
in its caller `ScannerEngine.analyzeLatest`, which looks the detected event's id up
in the store before inserting.  Through that guarded path the store never gains two
events with equal id, and a detection whose id is already stored leaves the store
unchanged. -/
theorem c1_amended (symbol : String) (timeframe : Timeframe) (candles : List OHLCV)
    (events : List VolumeEvent) (h : noDupIds events) :
    noDupIds (analyzeLatest symbol timeframe candles events) ∧
    (∀ event, analyzeLatestEvent symbol timeframe candles = some event →
      (∃ e ∈ events, e.id = event.id) →
      analyzeLatest symbol timeframe candles events = events) := by
  constructor
  · cases hev : analyzeLatestEvent symbol timeframe candles with
    | none => simpa [analyzeLatest, hev] using h
    | some event =>
      cases hfind : events.find? (fun e => e.id == event.id) with
      | some e => simpa [analyzeLatest, hev, hfind] using h
      | none =>
        have hstep : analyzeLatest symbol timeframe candles events = addEvent events event := by
          simp [analyzeLatest, hev, hfind]
        have hnew : ∀ e ∈ events, event.id ≠ e.id := by
          intro e he heq
          have hf := List.find?_eq_none.mp hfind e he
          simp only [beq_iff_eq] at hf
          exact hf heq.symm
        have hp : (event :: events).Pairwise (fun a b => a.id ≠ b.id) :=
          List.pairwise_cons.mpr ⟨hnew, h⟩
        rw [hstep, addEvent_eq_take]
        exact List.Pairwise.sublist (List.take_sublist _ _) hp
  · rintro event hev ⟨e, he, heq⟩
    cases hfind : events.find? (fun e => e.id == event.id) with
    | some _ => simp [analyzeLatest, hev, hfind]
    | none =>
      exfalso
      have hf := List.find?_eq_none.mp hfind e he
      simp only [beq_iff_eq] at hf
      exact hf heq

/-- C1 (witness): the amended statement instantiated at an empty store and an empty
candle list. -/
theorem c1_witness :
    noDupIds (analyzeLatest "BTCUSDT" "5m" [] []) ∧
    (∀ event, analyzeLatestEvent "BTCUSDT" "5m" [] = some event →
      (∃ e ∈ ([] : List VolumeEvent), e.id = event.id) →
      analyzeLatest "BTCUSDT" "5m" [] [] = []) :=
  c1_amended "BTCUSDT" "5m" [] [] List.Pairwise.nil

/-- C2: starting from an empty store, any sequence of `addEvent` insertions leaves
the store equal to the newest-first list of the 500 most recently inserted events;
in particular its length never exceeds the cap of 500. -/
theorem c2_eviction (es : List VolumeEvent) :
    es.foldl addEvent [] = es.reverse.take 500 ∧
    (es.foldl addEvent []).length ≤ 500 := by
  have h := foldl_addEvent es [] (by simp)
  rw [List.append_nil] at h
  exact ⟨h, by rw [h]; exact List.length_take_le _ _⟩

/-- The report sort is a permutation of its input. -/
lemma sortByTimeDesc_perm (l : List VolumeEvent) : List.Perm (sortByTimeDesc l) l :=
  List.perm_insertionSort _ l

/-- The report sort orders events newest-first. -/
lemma sortByTimeDesc_sorted (l : List VolumeEvent) : sortedNewestFirst (sortByTimeDesc l) := by
  haveI : IsTotal VolumeEvent (fun a b => b.time ≤ a.time) := ⟨fun a b => Int.le_total b.time a.time⟩
  haveI : IsTrans VolumeEvent (fun a b => b.time ≤ a.time) :=
    ⟨fun _ _ _ h1 h2 => le_trans h2 h1⟩
  exact List.sorted_insertionSort _ l

/-- C3: the bulk replace `setEvents` ignores the previous store contents, caps the
result at 500 events, orders it newest-first, keeps only events whose bar time is at
least that of every evicted event (the most recent ones), loses nothing but those
evicted events, and backfill completion commits through exactly one such bulk
replace of the sorted gathered events. -/
theorem c3_bulk_replace (store store2 incoming : List VolumeEvent) :
    setEvents store incoming = setEvents store2 incoming ∧
    (setEvents store incoming).length ≤ 500 ∧
    sortedNewestFirst (setEvents store incoming) ∧
    (∀ a ∈ setEvents store incoming, ∀ b ∈ (sortByTimeDesc incoming).drop 500,
      b.time ≤ a.time) ∧
    List.Perm (setEvents store incoming ++ (sortByTimeDesc incoming).drop 500) incoming ∧
    backfillCommit store incoming = setEvents store (sortByTimeDesc incoming) := by
  refine ⟨rfl, List.length_take_le _ _, ?_, ?_, ?_, rfl⟩
  · exact List.Pairwise.sublist (List.take_sublist _ _) (sortByTimeDesc_sorted incoming)
  · have hs := sortByTimeDesc_sorted incoming
    rw [← List.take_append_drop 500 (sortByTimeDesc incoming)] at hs
    exact fun a ha b hb => (List.pairwise_append.mp hs).2.2 a ha b hb
  · have heq : setEvents store incoming ++ (sortByTimeDesc incoming).drop 500 =
        sortByTimeDesc incoming := List.take_append_drop 500 _
    rw [heq]
    exact sortByTimeDesc_perm incoming

/-- C3 (witness): the bulk-replace statement instantiated at concrete stores and a
one-event incoming list. -/
theorem c3_witness :
    setEvents [] [exEvent] = setEvents [exEvent] [exEvent] ∧
    (setEvents [] [exEvent]).length ≤ 500 ∧
    sortedNewestFirst (setEvents [] [exEvent]) ∧
    (∀ a ∈ setEvents [] [exEvent], ∀ b ∈ (sortByTimeDesc [exEvent]).drop 500,
      b.time ≤ a.time) ∧
    List.Perm (setEvents [] [exEvent] ++ (sortByTimeDesc [exEvent]).drop 500) [exEvent] ∧
    backfillCommit [] [exEvent] = setEvents [] (sortByTimeDesc [exEvent]) :=
  c3_bulk_replace [] [exEvent] [exEvent]

/-- A volume fold over a constant list stays at the seed. -/
lemma foldl_ema_const (k c : ℝ) :
    ∀ m, (List.replicate m c).foldl (fun ema v => v * k + ema * (1 - k)) c = c := by
  intro m
  induction m with
  | zero => rfl
  | succ m ih =>
    rw [List.replicate_succ, List.foldl_cons, show c * k + c * (1 - k) = c from by ring]
    exact ih

/-- The EMA of a constant window is that constant. -/
lemma calculateEMA_const (n : ℕ) (c : ℝ) :
    calculateEMA (List.replicate (n + 1) c) = c := by
  unfold calculateEMA
  rw [List.replicate_succ]
  simpa using foldl_ema_const _ c n

/-- Statistics of a constant window: EMA is the constant, stdDev is zero. -/
lemma calculateStats_const (n : ℕ) (t : Int) (c : ℝ) :
    calculateStats (List.replicate (n + 1) (mkC t c)) = some ⟨c, 0⟩ := by
  unfold calculateStats
  simp only [List.map_replicate]
  rw [if_neg (by simp)]
  have hema : calculateEMA (List.replicate (n + 1) (mkC t c).volume) = (mkC t c).volume :=
    calculateEMA_const n _
  rw [hema]
  have hstd : calculateStdDev (List.replicate (n + 1) (mkC t c).volume) (mkC t c).volume = 0 := by
    unfold calculateStdDev
    simp [List.map_replicate, List.sum_replicate, Real.sqrt_zero, mkC]
  rw [hstd, mkC]

/-- The volumes of the `base21` window. -/
lemma base21_volumes :
    base21.map (fun c => c.volume) =
      [0, 0, 0, 0, 0, 0, 0, 0, 0, 0, 0, 0, 0, 0, 0, 0, 0, 0, 0, 0, (11 : ℝ)] := by
  simp [base21, mkC]

/-- The `base21` window has 21 candles. -/
lemma base21_length : base21.length = 21 := by
  simp [base21]

/-- EMA of the `base21` volumes: nineteen zero steps keep the seed 0, and the final
step gives `11 * (1/11) = 1`. -/
lemma base21_ema :
    calculateEMA [0, 0, 0, 0, 0, 0, 0, 0, 0, 0, 0, 0, 0, 0, 0, 0, 0, 0, 0, 0, (11 : ℝ)] = 1 := by
  unfold calculateEMA
  simp only [List.length_cons, List.length_nil, List.drop_succ_cons, List.drop_zero,
    List.headI_cons, List.foldl_cons, List.foldl_nil]
  norm_num

/-- StdDev of the `base21` volumes around their EMA of 1. -/
lemma base21_stdDev :
    calculateStdDev [0, 0, 0, 0, 0, 0, 0, 0, 0, 0, 0, 0, 0, 0, 0, 0, 0, 0, 0, 0, (11 : ℝ)] 1 =
      Real.sqrt (40 / 7) := by
  unfold calculateStdDev
  simp only [List.map_cons, List.map_nil, List.sum_cons, List.sum_nil, List.length_cons,
    List.length_nil]
  norm_num

/-- `calculateStats` on the `base21` window. -/
lemma base21_stats : calculateStats base21 = some ⟨1, Real.sqrt (40 / 7)⟩ := by
  unfold calculateStats
  rw [base21_volumes, if_neg (by norm_num)]
  dsimp only
  rw [base21_ema, base21_stdDev]

/-- `getStatsForWindow` over `base21` plus any newest candle, with `endIndex = 21`
and `period = 21`, computes the same EMA of 1 and stdDev `√(40/7)`. -/
lemma base21_getStats (c : OHLCV) :
    getStatsForWindow (base21 ++ [c]) 21 21 = some ⟨1, Real.sqrt (40 / 7)⟩ := by
  unfold getStatsForWindow
  rw [if_neg (by norm_num)]
  have htake : (base21 ++ [c]).take 21 = base21 := by
    rw [show (21 : ℕ) = base21.length from base21_length.symm]
    exact List.take_left base21 [c]
  rw [htake]
  dsimp only
  rw [base21_volumes]
  simp only [List.length_cons, List.length_nil, List.drop_succ_cons, List.drop_zero,
    List.headI_cons, List.foldl_cons, List.foldl_nil, List.map_cons, List.map_nil,
    List.sum_cons, List.sum_nil]
  norm_num

/-- `√(40/7)` is positive. -/
lemma sqrt407_pos : 0 < Real.sqrt (40 / 7) :=
  Real.sqrt_pos.mpr (by norm_num)

/-- `√(40/7) < 3`. -/
lemma sqrt407_lt_three : Real.sqrt (40 / 7) < 3 :=
  (Real.sqrt_lt' (by norm_num)).mpr (by norm_num)

/-- The developing candle of an append is its last element. -/
lemma getD_last_append (l : List OHLCV) (a : OHLCV) :
    (l ++ [a]).getD ((l ++ [a]).length - 1) default = a := by
  have h : (l ++ [a]).length - 1 = l.length := by simp
  rw [h, List.getD_eq_getElem?_getD, List.getElem?_concat_length]
  rfl

/-- The earlier scanner's baseline over a history of twenty volume-100 bars:
mean 100, standard deviation 0. -/
lemma baselineV1_flat100 (candles : List OHLCV) (hlen : ¬ candles.length < 20)
    (h : historyV1 candles = List.replicate 20 (mkC 0 100)) :
    analyzeBaselineV1 candles = some (100, 0) := by
  unfold analyzeBaselineV1
  rw [if_neg hlen, h]
  dsimp only
  rw [if_neg (by simp)]
  simp only [List.map_replicate, List.sum_replicate, List.length_replicate, nsmul_eq_mul]
  rw [if_neg (by norm_num [mkC])]
  norm_num [mkC]

/-- The history slice of `exC4`. -/
lemma exC4_history : historyV1 exC4 = List.replicate 20 (mkC 0 100) := by
  have h1 : (List.replicate 20 (mkC 0 100) ++ [mkC 20 1000]).length - 1 =
      (List.replicate 20 (mkC 0 100)).length := by simp
  simp only [historyV1, exC4, h1, List.take_left]
  simp

/-- The history slice of `exFlat21`. -/
lemma exFlat21_history : historyV1 exFlat21 = List.replicate 20 (mkC 0 100) := by
  simp only [historyV1, exFlat21]
  simp [List.take_replicate]

/-- C4 (counterexample): on `exC4` — twenty bars of volume 100 then a 1000-volume
bar — the earlier live `analyze` (src/src/services/scanner.ts) computes a baseline
with `stdDev = 0` and still produces an event under the default settings, because
the volume-ratio test fires (`1000 / 100 = 10 ≥ 2`). -/
theorem c4_counterexample :
    analyzeBaselineV1 exC4 = some (100, 0) ∧
    (analyze "BTCUSDT" "30m" exC4 DEFAULT_SETTINGS).isSome = true := by
  have hb : analyzeBaselineV1 exC4 = some (100, 0) :=
    baselineV1_flat100 _ (by simp [exC4]) exC4_history
  refine ⟨hb, ?_⟩
  unfold analyze
  rw [hb]
  dsimp only
  rw [show exC4.getD (exC4.length - 1) default = mkC 20 1000 from getD_last_append _ _]
  rw [if_pos (Or.inl (by norm_num [mkC, DEFAULT_SETTINGS]))]
  rfl

/-- C4 (amended): in the historical scan (`scanHistory`) a bar whose baseline
statistics have `stdDev = 0` is always skipped; in the earlier live `analyze` a
`stdDev` of 0 forces the z-score to 0, so such a bar produces no event provided the
volume-ratio test does not fire and `minZScore` is positive — the volume-ratio path
can otherwise still emit an event for a `stdDev = 0` bar. -/
theorem c4_amended :
    (∀ (symbol : String) (timeframe : Timeframe) (candles : List OHLCV) (minZScore : ℝ)
        (i : Nat) (stats : Stats),
        calculateStats (windowAt candles i) = some stats → stats.stdDev = 0 →
        scanBar symbol timeframe candles minZScore i = none) ∧
    (∀ (symbol : String) (timeframe : Timeframe) (candles : List OHLCV)
        (settings : AppSettings) (avgVol : ℝ),
        analyzeBaselineV1 candles = some (avgVol, 0) →
        (candles.getD (candles.length - 1) default).volume / avgVol <
          settings.minVolumeMult →
        0 < settings.minZScore →
        analyze symbol timeframe candles settings = none) := by
  constructor
  · intro symbol timeframe candles minZScore i stats hstats hsd
    unfold scanBar
    rw [hstats]
    dsimp only
    rw [if_pos hsd]
  · intro symbol timeframe candles settings avgVol hb hratio hz
    unfold analyze
    rw [hb]
    dsimp only
    rw [if_pos rfl, if_neg]
    rintro (hvol | hzs)
    · exact absurd hvol (not_le.mpr hratio)
    · exact absurd hzs (not_le.mpr hz)

/-- C4 (witness): the amended statement instantiated on all-flat inputs — a constant
22-bar history for the historical scan, and 21 constant bars for the earlier live
`analyze` under default settings (volume ratio 1 < 2, `minZScore = 2 > 0`). -/
theorem c4_witness :
    scanBar "BTCUSDT" "30m" exFlat22 2 21 = none ∧
    analyze "BTCUSDT" "30m" exFlat21 DEFAULT_SETTINGS = none := by
  constructor
  · refine c4_amended.1 "BTCUSDT" "30m" exFlat22 2 21 ⟨100, 0⟩ ?_ rfl
    have hw : windowAt exFlat22 21 = List.replicate 21 (mkC 0 100) := by
      simp [windowAt, exFlat22, List.take_replicate]
    rw [hw]
    exact calculateStats_const 20 0 100
  · refine c4_amended.2 "BTCUSDT" "30m" exFlat21 DEFAULT_SETTINGS 100
      (baselineV1_flat100 _ (by simp [exFlat21]) exFlat21_history) ?_ (by norm_num [DEFAULT_SETTINGS])
    have hcur : exFlat21.getD (exFlat21.length - 1) default = mkC 0 100 := by
      simp [exFlat21, List.getD_eq_getElem?_getD]
    rw [hcur]
    norm_num [mkC, DEFAULT_SETTINGS]

/-- The history slice of `exC5`: its last 20 closed bars. -/
lemma exC5_history :
    historyV1 exC5 =
      [mkC 0 0, mkC 1 0, mkC 2 0, mkC 3 0, mkC 4 0, mkC 5 0, mkC 6 0,
       mkC 7 0, mkC 8 0, mkC 9 0, mkC 10 0, mkC 11 0, mkC 12 0, mkC 13 0,
       mkC 14 0, mkC 15 0, mkC 16 0, mkC 17 0, mkC 18 0, mkC 19 11] := by
  rfl

/-- C5 (counterexample): on `exC5`, the earlier live `analyze`
(src/src/services/scanner.ts lines 100-109) uses the arithmetic mean `11/20` of the
last 20 closed bars as its baseline, while the EMA mandated by the claim
(`k = 2/(period+1)`, seeded with the first sample) over those same samples is
`22/21` — the live baseline computation is not the EMA. -/
theorem c5_counterexample :
    (analyzeBaselineV1 exC5).map Prod.fst = some (11 / 20) ∧
    emaSpec ((historyV1 exC5).map (fun c => c.volume)) 20 = 22 / 21 ∧
    ((11 : ℝ) / 20) ≠ 22 / 21 := by
  refine ⟨?_, ?_, by norm_num⟩
  · unfold analyzeBaselineV1
    rw [if_neg (by simp [exC5]), exC5_history]
    dsimp only
    rw [if_neg (by simp)]
    simp only [List.map_cons, List.map_nil, List.sum_cons, List.sum_nil, List.length_cons,
      List.length_nil, mkC]
    rw [if_neg (by norm_num)]
    norm_num
  · rw [exC5_history]
    simp only [List.map_cons, List.map_nil, mkC]
    unfold emaSpec
    simp only [List.foldl_cons, List.foldl_nil]
    norm_num

/-- C5 (amended): the historical reporter's `calculateStats` does return the spec's
EMA (smoothing `k = 2/(period+1)`, seeded with the first sample, with the window
length as the period) and, as `stdDev`, the population standard deviation of the
window around that EMA; the earlier live `analyze`, however, uses the arithmetic
mean of the last 20 closed bars as its baseline and computes the standard deviation
around that mean, not around an EMA. -/
theorem c5_amended :
    (∀ window : List OHLCV, window ≠ [] →
      calculateStats window =
        some ⟨emaSpec (window.map (fun c => c.volume)) window.length,
              stdDevSpec (window.map (fun c => c.volume)) window.length
                (emaSpec (window.map (fun c => c.volume)) window.length)⟩) ∧
    (∀ (candles : List OHLCV) (avgVol stdDev : ℝ),
      analyzeBaselineV1 candles = some (avgVol, stdDev) →
      avgVol = ((historyV1 candles).map (fun c => c.volume)).sum /
          ((historyV1 candles).length : ℝ) ∧
      stdDev = Real.sqrt (((historyV1 candles).map (fun c => (c.volume - avgVol) ^ 2)).sum /
          ((historyV1 candles).length : ℝ))) := by
  constructor
  · rintro (_ | ⟨c, cs⟩) hw
    · exact absurd rfl hw
    · unfold calculateStats calculateEMA calculateStdDev emaSpec stdDevSpec
      simp only [List.map_cons, List.length_cons, List.headI_cons, List.drop_succ_cons,
        List.drop_zero, Nat.sub_self]
      rw [if_neg (by simp)]
      norm_num [List.length_map]
  · intro candles avgVol stdDev h
    unfold analyzeBaselineV1 at h
    by_cases h1 : candles.length < 20
    · rw [if_pos h1] at h
      cases h
    · rw [if_neg h1] at h
      dsimp only at h
      by_cases h2 : (historyV1 candles).length = 0
      · rw [if_pos h2] at h
        cases h
      · rw [if_neg h2] at h
        by_cases h3 : ((historyV1 candles).map (fun c => c.volume)).sum /
            ((historyV1 candles).length : ℝ) = 0
        · rw [if_pos h3] at h
          cases h
        · rw [if_neg h3] at h
          simp only [Option.some.injEq, Prod.mk.injEq] at h
          obtain ⟨h4, h5⟩ := h
          refine ⟨h4.symm, ?_⟩
          rw [← h4]
          exact h5.symm

/-- C5 (witness): the amended statement instantiated at a one-candle window and at
the flat 21-candle input whose baseline is `(100, 0)`. -/
theorem c5_witness :
    calculateStats [mkC 0 5] =
      some ⟨emaSpec ([mkC 0 5].map (fun c => c.volume)) [mkC 0 5].length,
            stdDevSpec ([mkC 0 5].map (fun c => c.volume)) [mkC 0 5].length
              (emaSpec ([mkC 0 5].map (fun c => c.volume)) [mkC 0 5].length)⟩ ∧
    ((100 : ℝ) = ((historyV1 exFlat21).map (fun c => c.volume)).sum /
        ((historyV1 exFlat21).length : ℝ) ∧
      (0 : ℝ) = Real.sqrt (((historyV1 exFlat21).map (fun c => (c.volume - 100) ^ 2)).sum /
        ((historyV1 exFlat21).length : ℝ))) :=
  ⟨c5_amended.1 [mkC 0 5] (by simp),
   c5_amended.2 exFlat21 100 0 (baselineV1_flat100 _ (by simp [exFlat21]) exFlat21_history)⟩

/-- `exC6` has 22 candles. -/
lemma exC6_length : exC6.length = 22 := by
  simp [exC6, base21]

/-- The `scanHistory` baseline window of `exC6` at index 21 is `base21`. -/
lemma exC6_window : windowAt exC6 21 = base21 := by
  unfold windowAt exC6
  rw [Nat.sub_self, List.drop_zero, show (21 : ℕ) = base21.length from base21_length.symm,
    List.take_left]

/-- C6 (counterexample): on `exC6` the newest bar's z-score is exactly the
configured `minZScore` of 0 (its volume 1 equals the baseline EMA and the baseline
`stdDev = √(40/7)` is nonzero), yet the live `analyzeLatest` produces no event: its
threshold test is the hard-coded strict `zScore > 2.0`, not the inclusive
`zScore >= minZScore`. -/
theorem c6_counterexample :
    getStatsForWindow exC6 (exC6.length - 1) 21 = some ⟨1, Real.sqrt (40 / 7)⟩ ∧
    Real.sqrt (40 / 7) ≠ 0 ∧
    ((exC6.getD (exC6.length - 1) default).volume - 1) / Real.sqrt (40 / 7) =
      settingsC6.minZScore ∧
    analyzeLatestEvent "BTCUSDT" "5m" exC6 = none := by
  have hlen : exC6.length - 1 = 21 := by rw [exC6_length]
  have hstats : getStatsForWindow exC6 (exC6.length - 1) 21 = some ⟨1, Real.sqrt (40 / 7)⟩ := by
    rw [hlen]
    exact base21_getStats (mkC 21 1)
  have hcur : exC6.getD (exC6.length - 1) default = mkC 21 1 :=
    getD_last_append base21 (mkC 21 1)
  have hz : ((mkC 21 1).volume - (1 : ℝ)) / Real.sqrt (40 / 7) = 0 := by
    simp [mkC]
  refine ⟨hstats, ne_of_gt sqrt407_pos, ?_, ?_⟩
  · rw [hcur, hz]
    simp [settingsC6, DEFAULT_SETTINGS]
  · unfold analyzeLatestEvent
    rw [hstats]
    dsimp only
    rw [if_neg (ne_of_gt sqrt407_pos), hcur, if_neg]
    rw [hz]
    norm_num

/-- C6 (amended): the historical scan's threshold test is the inclusive
`zScore >= minZScore`, but the live path's `analyzeLatest` fires exactly on the
strict, hard-coded `zScore > 2.0` and ignores the configured `minZScore`. -/
theorem c6_amended :
    (∀ (symbol : String) (timeframe : Timeframe) (candles : List OHLCV) (minZScore : ℝ)
        (i : Nat) (stats : Stats),
        calculateStats (windowAt candles i) = some stats → stats.stdDev ≠ 0 →
        ((scanBar symbol timeframe candles minZScore i).isSome = true ↔
          minZScore ≤ ((candles.getD i default).volume - stats.ema) / stats.stdDev)) ∧
    (∀ (symbol : String) (timeframe : Timeframe) (candles : List OHLCV) (stats : Stats),
        getStatsForWindow candles (candles.length - 1) 21 = some stats → stats.stdDev ≠ 0 →
        ((analyzeLatestEvent symbol timeframe candles).isSome = true ↔
          2 < ((candles.getD (candles.length - 1) default).volume - stats.ema) /
            stats.stdDev)) := by
  constructor
  · intro symbol timeframe candles minZScore i stats h hne
    unfold scanBar
    rw [h]
    dsimp only
    rw [if_neg hne]
    by_cases hz : ((candles.getD i default).volume - stats.ema) / stats.stdDev ≥ minZScore
    · rw [if_pos hz]
      exact iff_of_true rfl hz
    · rw [if_neg hz]
      exact iff_of_false (by simp) (fun hc => hz hc)
  · intro symbol timeframe candles stats h hne
    unfold analyzeLatestEvent
    rw [h]
    dsimp only
    rw [if_neg hne]
    by_cases hz : ((candles.getD (candles.length - 1) default).volume - stats.ema) /
        stats.stdDev > 2
    · rw [if_pos hz]
      exact iff_of_true rfl hz
    · rw [if_neg hz]
      exact iff_of_false (by simp) (fun hc => hz hc)

/-- C6 (witness): the amended characterization instantiated on `exC6` for both
detection paths. -/
theorem c6_witness :
    ((scanBar "BTCUSDT" "5m" exC6 0 21).isSome = true ↔
      (0 : ℝ) ≤ ((exC6.getD 21 default).volume - 1) / Real.sqrt (40 / 7)) ∧
    ((analyzeLatestEvent "BTCUSDT" "5m" exC6).isSome = true ↔
      2 < ((exC6.getD (exC6.length - 1) default).volume - 1) / Real.sqrt (40 / 7)) :=
  ⟨c6_amended.1 "BTCUSDT" "5m" exC6 0 21 ⟨1, Real.sqrt (40 / 7)⟩
      (by rw [exC6_window]; exact base21_stats) (ne_of_gt sqrt407_pos),
   c6_amended.2 "BTCUSDT" "5m" exC6 ⟨1, Real.sqrt (40 / 7)⟩
      (by rw [show exC6.length - 1 = 21 from by rw [exC6_length]]
          exact base21_getStats (mkC 21 1))
      (ne_of_gt sqrt407_pos)⟩

/-- Replacing the element at the boundary index of a `take` leaves the prefix
unchanged. -/
lemma take_set_self (l : List OHLCV) (i : Nat) (a : OHLCV) :
    (l.set i a).take i = l.take i := by
  rw [List.set_take]
  exact List.set_eq_of_length_le (List.length_take_le i l)

/-- For scanned indices (`21 ≤ i`), the `scanHistory` window is a suffix of the
prefix of bars strictly before `i`. -/
lemma windowAt_eq_drop_take (l : List OHLCV) (i : Nat) (h : 21 ≤ i) :
    windowAt l i = (l.take i).drop (i - 21) := by
  have hi : i - 21 + 21 = i := by omega
  unfold windowAt
  rw [List.take_drop, hi]

/-- C7: the baseline used to score bar `i` is computed only from bars strictly
preceding `i` — replacing bar `i`'s volume (holding all earlier bars fixed) changes
neither the `scanHistory` window and its `calculateStats` baseline, nor the live
scanner's `getStatsForWindow` baseline with `endIndex = i`, for any period. -/
theorem c7_invariance (candles : List OHLCV) (i period : Nat) (v : ℝ) (h : 21 ≤ i) :
    windowAt (candles.set i { candles.getD i default with volume := v }) i =
      windowAt candles i ∧
    calculateStats (windowAt (candles.set i { candles.getD i default with volume := v }) i) =
      calculateStats (windowAt candles i) ∧
    getStatsForWindow (candles.set i { candles.getD i default with volume := v }) i period =
      getStatsForWindow candles i period := by
  have hwin : windowAt (candles.set i { candles.getD i default with volume := v }) i =
      windowAt candles i := by
    rw [windowAt_eq_drop_take _ i h, windowAt_eq_drop_take _ i h, take_set_self]
  refine ⟨hwin, by rw [hwin], ?_⟩
  unfold getStatsForWindow
  rw [take_set_self]

/-- C7 (witness): the invariance statement instantiated on a concrete 22-candle
list, its newest index and a changed volume of 5. -/
theorem c7_witness :
    windowAt (exFlat22.set 21 { exFlat22.getD 21 default with volume := 5 }) 21 =
      windowAt exFlat22 21 ∧
    calculateStats (windowAt (exFlat22.set 21 { exFlat22.getD 21 default with volume := 5 }) 21) =
      calculateStats (windowAt exFlat22 21) ∧
    getStatsForWindow (exFlat22.set 21 { exFlat22.getD 21 default with volume := 5 }) 21 21 =
      getStatsForWindow exFlat22 21 21 :=
  c7_invariance exFlat22 21 21 5 (by norm_num)

/-- C8: `generateReport` is total by construction and returns exactly the events
gathered from the tasks whose fetch succeeded — a failed task is skipped and
contributes nothing — as a newest-first (by bar time) reordering of those events. -/
theorem c8_report (config : ReportConfig)
    (fetch : String → Timeframe → Option (List OHLCV)) :
    List.Perm (generateReport config fetch) (reportResults config fetch) ∧
    sortedNewestFirst (generateReport config fetch) ∧
    (∀ event ∈ generateReport config fetch,
      ∃ t ∈ reportTasks config, ∃ candles, fetch t.1 t.2 = some candles ∧
        event ∈ scanHistory t.1 t.2 candles config.minZScore) := by
  refine ⟨sortByTimeDesc_perm _, sortByTimeDesc_sorted _, ?_⟩
  intro event hev
  have hmem : event ∈ reportResults config fetch :=
    (sortByTimeDesc_perm (reportResults config fetch)).mem_iff.mp hev
  unfold reportResults at hmem
  rw [List.mem_flatMap] at hmem
  obtain ⟨t, ht, hin⟩ := hmem
  cases hf : fetch t.1 t.2 with
  | none =>
    rw [hf] at hin
    cases hin
  | some candles =>
    rw [hf] at hin
    exact ⟨t, ht, candles, hf, hin⟩

/-- C8 (witness): the report statement instantiated at a 2-symbol x 2-timeframe
configuration with exactly one failing task. -/
theorem c8_witness :
    List.Perm (generateReport configEx fetchEx) (reportResults configEx fetchEx) ∧
    sortedNewestFirst (generateReport configEx fetchEx) ∧
    (∀ event ∈ generateReport configEx fetchEx,
      ∃ t ∈ reportTasks configEx, ∃ candles, fetchEx t.1 t.2 = some candles ∧
        event ∈ scanHistory t.1 t.2 candles configEx.minZScore) :=
  c8_report configEx fetchEx

/-- The `scanHistory` window at index 21 of `base21` plus any newest candle. -/
lemma windowAt_append21 (c : OHLCV) : windowAt (base21 ++ [c]) 21 = base21 := by
  unfold windowAt
  rw [Nat.sub_self, List.drop_zero, show (21 : ℕ) = base21.length from base21_length.symm,
    List.take_left]

/-- Appending one candle to `base21` gives a last index of 21. -/
lemma len_append21 (c : OHLCV) : (base21 ++ [c]).length - 1 = 21 := by
  simp [base21]

/-- Index 21 of `base21` plus a newest candle is that candle. -/
lemma getD21_append (c : OHLCV) : (base21 ++ [c]).getD 21 default = c := by
  have h := getD_last_append base21 c
  rwa [len_append21] at h

/-- On `exC9`, the `scanHistory` loop body fires at index 21 with threshold 0. -/
lemma exC9_scanBar_isSome : (scanBar "BTCUSDT" "30m" exC9 0 21).isSome = true := by
  unfold scanBar exC9
  rw [windowAt_append21, base21_stats]
  dsimp only
  rw [if_neg (ne_of_gt sqrt407_pos), getD21_append, if_pos]
  · rfl
  · exact div_nonneg (by norm_num [mkC]) (Real.sqrt_nonneg _)

/-- C9 (counterexample): `exC9` has 22 candles, so its bar 21 has a full 21-bar
warm-up window and its detection fires at threshold 0, yet `scanHistory` returns no
events at all: its guard requires at least `PERIOD + 10 = 31` candles, so bars of
shorter sequences are never scored. -/
theorem c9_counterexample :
    21 < exC9.length ∧
    (scanBar "BTCUSDT" "30m" exC9 0 21).isSome = true ∧
    scanHistory "BTCUSDT" "30m" exC9 0 = [] := by
  refine ⟨by simp [exC9, base21], exC9_scanBar_isSome, ?_⟩
  unfold scanHistory
  rw [if_pos (by simp [exC9, base21])]

/-- C9 (amended): provided the sequence has at least `PERIOD + 10 = 31` candles,
the historical scan evaluates every bar from index 21 (the first with a full 21-bar
warm-up window) through the newest bar, and its output events are exactly the
per-bar detections over that index range. -/
theorem c9_amended (symbol : String) (timeframe : Timeframe) (candles : List OHLCV)
    (minZScore : ℝ) (h : 31 ≤ candles.length) :
    scanHistory symbol timeframe candles minZScore =
      (List.range' 21 (candles.length - 21)).filterMap
        (scanBar symbol timeframe candles minZScore) ∧
    (∀ event, event ∈ scanHistory symbol timeframe candles minZScore ↔
      ∃ i, 21 ≤ i ∧ i < candles.length ∧
        scanBar symbol timeframe candles minZScore i = some event) := by
  have h1 : scanHistory symbol timeframe candles minZScore =
      (List.range' 21 (candles.length - 21)).filterMap
        (scanBar symbol timeframe candles minZScore) := by
    unfold scanHistory
    rw [if_neg (by omega)]
  refine ⟨h1, ?_⟩
  intro event
  rw [h1, List.mem_filterMap]
  constructor
  · rintro ⟨i, hi, hsc⟩
    rw [List.mem_range'] at hi
    obtain ⟨j, hj, rfl⟩ := hi
    exact ⟨21 + 1 * j, by omega, by omega, hsc⟩
  · rintro ⟨i, hi1, hi2, hsc⟩
    refine ⟨i, ?_, hsc⟩
    rw [List.mem_range']
    exact ⟨i - 21, by omega, by omega⟩

/-- C9 (witness): the amended statement instantiated on a 31-candle input. -/
theorem c9_witness :
    scanHistory "BTCUSDT" "5m" ex31 0 =
      (List.range' 21 (ex31.length - 21)).filterMap (scanBar "BTCUSDT" "5m" ex31 0) ∧
    (∀ event, event ∈ scanHistory "BTCUSDT" "5m" ex31 0 ↔
      ∃ i, 21 ≤ i ∧ i < ex31.length ∧ scanBar "BTCUSDT" "5m" ex31 0 i = some event) :=
  c9_amended "BTCUSDT" "5m" ex31 0 (by simp [ex31])

/-- C10: whenever either detection path produces an event, the baseline statistics
it divided by existed and had `stdDev ≠ 0` — the z-score division is reached only
behind the `!stats || stats.stdDev === 0` guards, so the division-by-zero case is
unreachable and the embedded detection functions are total. -/
theorem c10_guard :
    (∀ (symbol : String) (timeframe : Timeframe) (candles : List OHLCV) (minZScore : ℝ)
        (i : Nat), (scanBar symbol timeframe candles minZScore i).isSome = true →
        ∃ stats, calculateStats (windowAt candles i) = some stats ∧ stats.stdDev ≠ 0) ∧
    (∀ (symbol : String) (timeframe : Timeframe) (candles : List OHLCV),
        (analyzeLatestEvent symbol timeframe candles).isSome = true →
        ∃ stats, getStatsForWindow candles (candles.length - 1) 21 = some stats ∧
          stats.stdDev ≠ 0) := by
  constructor
  · intro symbol timeframe candles minZScore i hsome
    unfold scanBar at hsome
    cases hst : calculateStats (windowAt candles i) with
    | none =>
      rw [hst] at hsome
      simp at hsome
    | some stats =>
      rw [hst] at hsome
      dsimp only at hsome
      by_cases hz : stats.stdDev = 0
      · rw [if_pos hz] at hsome
        simp at hsome
      · exact ⟨stats, rfl, hz⟩
  · intro symbol timeframe candles hsome
    unfold analyzeLatestEvent at hsome
    cases hst : getStatsForWindow candles (candles.length - 1) 21 with
    | none =>
      rw [hst] at hsome
      simp at hsome
    | some stats =>
      rw [hst] at hsome
      dsimp only at hsome
      by_cases hz : stats.stdDev = 0
      · rw [if_pos hz] at hsome
        simp at hsome
      · exact ⟨stats, rfl, hz⟩

/-- On `exC9`, the live `analyzeLatest` detection fires (z-score `99/√(40/7) > 2`). -/
lemma exC9_analyzeLatest_isSome : (analyzeLatestEvent "BTCUSDT" "5m" exC9).isSome = true := by
  unfold analyzeLatestEvent exC9
  rw [len_append21, base21_getStats]
  dsimp only
  rw [if_neg (ne_of_gt sqrt407_pos), getD21_append, if_pos]
  · rfl
  · have hs3 := sqrt407_lt_three
    have hsp := sqrt407_pos
    rw [gt_iff_lt, lt_div_iff₀ hsp, show (mkC 21 100).volume = 100 from rfl]
    nlinarith

/-- C10 (witness): the guard statement instantiated on `exC9`, where both detection
paths produce an event. -/
theorem c10_witness :
    (∃ stats, calculateStats (windowAt exC9 21) = some stats ∧ stats.stdDev ≠ 0) ∧
    (∃ stats, getStatsForWindow exC9 (exC9.length - 1) 21 = some stats ∧
      stats.stdDev ≠ 0) :=
  ⟨c10_guard.1 "BTCUSDT" "30m" exC9 0 21 exC9_scanBar_isSome,
   c10_guard.2 "BTCUSDT" "5m" exC9 exC9_analyzeLatest_isSome⟩

end VolumeRadar
